import Mathlib

/-
  Verification of the team-activity-monitors repository against its
  natural-language specification.

  The frontend JavaScript (conversationApi.js, activityApi.js, the
  ConversationChat component) is embedded directly from the source.
  The backend orchestration core (Conversation Memory, Intent Parser,
  Operation Dispatcher, Fallback Agent) ships only as documentation in
  this repository, so those parts are modelled from the specification;
  each such definition is marked in its doc comment.
-/

namespace TeamActivity

/-! ## A small JSON value model (for the JS API layer) -/

/-- JSON values as produced by `response.json()` in the frontend API layer. -/
inductive Json where
  | null
  | bool (b : Bool)
  | num (n : Int)
  | str (s : String)
  | arr (elems : List Json)
  | obj (fields : List (String × Json))
deriving Repr

/-- Field lookup on a JSON object: `j.detail` style access in JS.
Returns none for non-objects and missing keys (JS `undefined`). -/
def Json.getField : Json → String → Option Json
  | Json.obj fields, key => fields.lookup key
  | _, _ => none

/-- Whether a JSON value is JSON null (in JS, property access on `null`
throws a TypeError rather than giving `undefined`). -/
def Json.isNull : Json → Bool
  | Json.null => true
  | _ => false

/-- JavaScript truthiness of a JSON value (used by the `||` operator in
`errorData.detail || fallback`). -/
def Json.truthy : Json → Bool
  | Json.null => false
  | Json.bool b => b
  | Json.num n => n != 0
  | Json.str s => s != ""
  | Json.arr _ => true
  | Json.obj _ => true

mutual
/-- JavaScript string coercion of a JSON value (applied by the `Error`
constructor to its message argument). -/
def Json.jsString : Json → String
  | Json.null => "null"
  | Json.bool b => if b then "true" else "false"
  | Json.num n => toString n
  | Json.str s => s
  | Json.arr xs => Json.jsStringList xs
  | Json.obj _ => "[object Object]"

/-- JavaScript `Array.prototype.toString`: elements joined by commas. -/
def Json.jsStringList : List Json → String
  | [] => ""
  | [x] => Json.jsString x
  | x :: y :: xs => Json.jsString x ++ "," ++ Json.jsStringList (y :: xs)
end

/-! ## handleResponse (conversationApi.js lines 16-25, activityApi.js lines 11-20) -/

/-- The ApiError class of conversationApi.js / activityApi.js: message and
HTTP status. -/
structure ApiError where
  message : String
  status : Nat
deriving DecidableEq, Repr

/-- A fetch Response as observed by handleResponse: the ok flag, the HTTP
status, and the body, where none means the body text is not valid JSON. -/
structure JsResponse where
  ok : Bool
  status : Nat
  body : Option Json
deriving Repr

/-- Possible outcomes of the async handleResponse call: resolve with the
parsed body, reject with an ApiError, reject with a JSON parse error
(the uncaught rejection of `response.json()` on the ok branch), or reject
with the TypeError thrown by `errorData.detail` when the parsed error body
is JSON null. -/
inductive JsOutcome where
  | ok (body : Json)
  | apiError (e : ApiError)
  | jsonError
  | typeError
deriving Repr

/-- Embeds handleResponse (conversationApi.js lines 16-25; the identical
copy in activityApi.js lines 11-20): on a non-ok response, parse the body
(an unparseable body becomes the empty object via `.catch(() => ({}))`)
and throw an ApiError with message `errorData.detail || fallback`; when the
parsed error body is JSON null, the `errorData.detail` access itself throws
a TypeError (property access on null), so no ApiError is built; on an ok
response, return `response.json()`. On every other non-object error body
(number, string, boolean, array) the `.detail` access gives `undefined` and
the fallback message is used. -/
def handleResponse (r : JsResponse) : JsOutcome :=
  if !r.ok then
    let errorData := r.body.getD (Json.obj [])
    if errorData.isNull then JsOutcome.typeError
    else
      let message :=
        match errorData.getField "detail" with
        | some d =>
            if d.truthy then d.jsString
            else "HTTP error! status: " ++ toString r.status
        | none => "HTTP error! status: " ++ toString r.status
      JsOutcome.apiError ⟨message, r.status⟩
  else
    match r.body with
    | some j => JsOutcome.ok j
    | none => JsOutcome.jsonError

/-! ## Conversation Memory (spec section 4.4) -/

/-- Message role: `user` or `assistant` (spec section 3). -/
inductive Role where
  | user
  | assistant
deriving DecidableEq, Repr

/-- Modelled from the spec: a Message record (spec section 3) — identifier,
thread reference, role, content; creation order within the store list is
chronological order. The backend message model is not under src. -/
structure Message where
  id : Nat
  thread_id : Nat
  role : Role
  content : String
deriving DecidableEq, Repr

/-- Modelled from the spec: a ConversationThread record (spec section 3).
The backend thread model is not under src. -/
structure ConversationThread where
  id : Nat
  title : String
deriving DecidableEq, Repr

/-- Modelled from the spec: the Conversation Memory store — threads and the
append-only message log (list order is append order, which equals
chronological order), plus the next fresh identifier. The backend store is
not under src. -/
structure Store where
  threads : List ConversationThread
  messages : List Message
  nextId : Nat
deriving Repr

/-- A thread exists in the store (deleted threads are removed, so existing
means existing and non-deleted). -/
def threadExists (s : Store) (tid : Nat) : Bool :=
  s.threads.any (fun t => t.id == tid)

/-- Modelled from the spec: `append(thread_id, role, content) → Message`
(spec section 4.4) — succeeds exactly for an existing, non-deleted thread,
appending an immutable message to the end of the log. The backend append
handler is not under src. -/
def appendMsg (s : Store) (tid : Nat) (role : Role) (content : String) :
    Option (Store × Message) :=
  if threadExists s tid then
    let m : Message := ⟨s.nextId, tid, role, content⟩
    some ({ s with messages := s.messages ++ [m], nextId := s.nextId + 1 }, m)
  else none

/-- Modelled from the spec: `history(thread_id, window)` (spec section 4.4)
— the most recent `window` messages of the thread in chronological order;
an empty or unknown thread gives the empty sequence, never an error. The
backend history handler is not under src. -/
def history (s : Store) (tid : Nat) (window : Nat) : List Message :=
  (((s.messages.filter (fun m => m.thread_id == tid)).reverse.take window)).reverse

/-- Modelled from the spec: `delete(thread_id)` (spec section 4.4) —
removes the thread and all its messages; total, hence idempotent and not an
error on a non-existent thread. The backend delete handler is not under
src. -/
def deleteThreadStore (s : Store) (tid : Nat) : Store :=
  { s with
    threads := s.threads.filter (fun t => t.id != tid),
    messages := s.messages.filter (fun m => m.thread_id != tid) }

/-- Modelled from the spec: implicit thread creation when the caller has no
thread yet and supplies a title (spec sections 4.4 and 6); mirrors the
createConversationThread call in queryTeamActivity (conversationApi.js
lines 96-101). -/
def createThread (s : Store) (title : String) : Store × ConversationThread :=
  let t : ConversationThread := ⟨s.nextId, title⟩
  ({ s with threads := s.threads ++ [t], nextId := s.nextId + 1 }, t)

/-- The response of the inbound query surface: the thread identifier that
was used plus the appended user message (spec section 6; conversationApi.js
lines 106-109 spread the response and add `threadId`). -/
structure QueryResponse where
  thread_id : Nat
  user_message : Message
deriving Repr

/-- Embeds queryTeamActivity (conversationApi.js lines 96-110), with the
server side of createConversationThread / sendMessage modelled from the
spec: with no thread identifier, create a thread from the title first; then
append the query as a user message to the thread used; the result carries
that thread identifier. -/
def queryTeamActivity (s : Store) (threadId : Option Nat) (title : String)
    (content : String) : Option (Store × QueryResponse) :=
  match threadId with
  | some tid =>
      (appendMsg s tid Role.user content).map (fun p => (p.1, ⟨tid, p.2⟩))
  | none =>
      let p := createThread s title
      (appendMsg p.1 p.2.id Role.user content).map
        (fun q => (q.1, ⟨p.2.id, q.2⟩))

/-! ## The ConversationChat component (src/unnamed/part_001) -/

/-- A message object of the React state list in ConversationChat: the id
string ("temp-..." or a server id), role and content. -/
structure UiMessage where
  id : String
  role : Role
  content : String
deriving DecidableEq, Repr

/-- The temporary optimistic id `temp-given time` computed from `Date.now()`
(part_001 line 89). -/
def tempMsgId (t : Nat) : String := "temp-" ++ toString t

/-- Embeds the success path of handleSendMessage (part_001 lines 88-117):
append the optimistic temporary user message, then on success replace it —
filter out the temporary id and append the final user message (with the
server id) followed by the assistant message. -/
def sendMessageSuccess (prior : List UiMessage) (appendTime : Nat)
    (userId agentId : String) (content respText : String) : List UiMessage :=
  let userMessage : UiMessage := ⟨tempMsgId appendTime, Role.user, content⟩
  let step1 := prior ++ [userMessage]
  (step1.filter (fun m => m.id != userMessage.id)) ++
    [⟨userId, Role.user, content⟩, ⟨agentId, Role.assistant, respText⟩]

/-- Embeds the failure path of handleSendMessage (part_001 lines 88-95 and
119-123): append the optimistic temporary user message whose id embeds
`Date.now()` at append time, then in the catch branch filter by the id
string rebuilt from a fresh `Date.now()` at catch time. -/
def sendMessageFailure (prior : List UiMessage) (appendTime catchTime : Nat)
    (content : String) : List UiMessage :=
  let userMessage : UiMessage := ⟨tempMsgId appendTime, Role.user, content⟩
  let step1 := prior ++ [userMessage]
  step1.filter (fun m => m.id != tempMsgId catchTime)

/-- Embeds handleDeleteThread (part_001 lines 132-144) acting on the
(currentThread, messages) pair after a successful deleteThread call: if the
deleted thread is the current one, clear both. -/
def handleDeleteThreadUi (currentThread : Option Nat)
    (messages : List UiMessage) (tid : Nat) :
    Option Nat × List UiMessage :=
  match currentThread with
  | some cid => if cid = tid then (none, []) else (currentThread, messages)
  | none => (currentThread, messages)

/-! ## Query-string builders (activityApi.js) -/

/-- A JavaScript filter value as passed to getJiraIssues, getGitHubCommits
and getGitHubPullRequests: null, undefined, a string, a number, a boolean,
or an array (whose elements reach `queryParams.append` as strings). -/
inductive FilterValue where
  | null
  | undef
  | str (s : String)
  | num (n : Int)
  | bool (b : Bool)
  | arr (elems : List String)
deriving DecidableEq, Repr

/-- The JavaScript test `value !== null && value !== undefined && value !== ''`
from the builder loops, negated: true exactly when the entry is skipped. -/
def FilterValue.isSkipped : FilterValue → Bool
  | FilterValue.null => true
  | FilterValue.undef => true
  | FilterValue.str s => s == ""
  | _ => false

/-- String coercion applied by `URLSearchParams.append` to a scalar value. -/
def FilterValue.jsString : FilterValue → String
  | FilterValue.str s => s
  | FilterValue.num n => toString n
  | FilterValue.bool b => if b then "true" else "false"
  | FilterValue.null => "null"
  | FilterValue.undef => "undefined"
  | FilterValue.arr xs => String.intercalate "," xs

/-- Embeds the `Object.entries(filters).forEach` loop shared verbatim by
getJiraIssues (activityApi.js lines 67-78), getGitHubCommits (lines
106-117) and getGitHubPullRequests (lines 123-134): skip null / undefined /
empty-string values, append one parameter per element for arrays, and one
key=value parameter otherwise, accumulating in entry order. -/
def appendFilterEntry (acc : List (String × String))
    (kv : String × FilterValue) : List (String × String) :=
  if kv.2.isSkipped then acc
  else
    match kv.2 with
    | FilterValue.arr xs => acc ++ xs.map (fun v => (kv.1, v))
    | v => acc ++ [(kv.1, v.jsString)]

/-- The accumulated query parameters of one builder call: fold the loop
body appendFilterEntry over the entries in order, starting empty. -/
def buildQueryParams (filters : List (String × FilterValue)) :
    List (String × String) :=
  filters.foldl appendFilterEntry []

/-- The query parameters built by getJiraIssues (activityApi.js lines
67-82). -/
def getJiraIssuesParams : List (String × FilterValue) → List (String × String) :=
  buildQueryParams

/-- The query parameters built by getGitHubCommits (activityApi.js lines
106-121). -/
def getGitHubCommitsParams : List (String × FilterValue) → List (String × String) :=
  buildQueryParams

/-- The query parameters built by getGitHubPullRequests (activityApi.js
lines 123-138). -/
def getGitHubPullRequestsParams : List (String × FilterValue) → List (String × String) :=
  buildQueryParams

/-- The per-entry expansion stated by the claim: omit entries whose value
is null, undefined or the empty string; expand an array-valued entry into
one repeated parameter per element in array order; include every other
entry as a single key=value parameter. Written from the claim wording, to
be compared with the source-derived builder. -/
def expandEntrySpec : String × FilterValue → List (String × String)
  | (_, FilterValue.null) => []
  | (_, FilterValue.undef) => []
  | (key, FilterValue.str s) => if s = "" then [] else [(key, s)]
  | (key, FilterValue.arr xs) => xs.map (fun v => (key, v))
  | (key, v) => [(key, v.jsString)]

/-! ## Capability Catalog and Operation Dispatcher (spec sections 3 and 4.2) -/

/-- Modelled from the spec: a CapabilityDescriptor (spec section 3) — tool
name, action name, and the required parameter names of its
parameter schema. The backend tool registry is not under src. -/
structure CapabilityDescriptor where
  tool : String
  action : String
  requiredParams : List String
deriving DecidableEq, Repr

/-- Modelled from the spec: an Operation (spec section 3) — tool
identifier, action identifier, and a parameter mapping. The backend plan
objects are not under src. -/
structure Operation where
  tool : String
  action : String
  params : List (String × String)
deriving DecidableEq, Repr

/-- Modelled from the spec: a ToolResult (spec section 3) — originating
Operation, success flag, payload on success, error description on
failure. -/
structure ToolResult where
  op : Operation
  success : Bool
  payload : Option String
  error : Option String
deriving DecidableEq, Repr

/-- The outcome of one adapter call for a valid Operation (spec section
4.2): success with payload, failure with error detail, or a timeout,
which must stay distinguishable from an outright failure. -/
inductive ExecOutcome where
  | success (payload : String)
  | failure (error : String)
  | timeout
deriving DecidableEq, Repr

/-- Look up the CapabilityDescriptor an Operation references. -/
def findDescriptor (catalog : List CapabilityDescriptor) (op : Operation) :
    Option CapabilityDescriptor :=
  catalog.find? (fun d => d.tool == op.tool && d.action == op.action)

/-- Modelled from the spec: Operation validation (spec sections 3 and 4.2)
— the (tool, action) pair must exist in the catalog and every required
parameter of its schema must be supplied. -/
def validOp (catalog : List CapabilityDescriptor) (op : Operation) : Bool :=
  match findDescriptor catalog op with
  | some d => d.requiredParams.all (fun p => (op.params.lookup p).isSome)
  | none => false

/-- Convert an adapter outcome into the ToolResult for its Operation; a
timeout is recorded with the distinguishable error kind "timeout". -/
def outcomeToResult (op : Operation) : ExecOutcome → ToolResult
  | ExecOutcome.success p => ⟨op, true, some p, none⟩
  | ExecOutcome.failure e => ⟨op, false, none, some e⟩
  | ExecOutcome.timeout => ⟨op, false, none, some "timeout"⟩

/-- The immediate validation-failure ToolResult for an invalid Operation
(spec section 4.2): success is false and a descriptive error is carried,
without consuming any adapter budget. -/
def invalidResult (op : Operation) : ToolResult :=
  ⟨op, false, none,
   some ("Unknown or invalid operation: " ++ op.tool ++ "." ++ op.action)⟩

/-- Modelled from the spec: `execute(plan) → ordered list of ToolResult`
(spec section 4.2) — validate each Operation against the catalog; an
invalid one yields an immediate validation-failure result, a valid one the
adapter outcome; one result per Operation, re-assembled in plan order,
and no failure aborts a sibling. The backend dispatcher is not under
src. -/
def dispatch (catalog : List CapabilityDescriptor)
    (adapter : Operation → ExecOutcome) (plan : List Operation) :
    List ToolResult :=
  plan.map (fun op =>
    if validOp catalog op then outcomeToResult op (adapter op)
    else invalidResult op)

/-! ## Intent Parser and relevance gate (spec section 4.1) -/

/-- Modelled from the spec: an IntentRecord (spec section 3) — relevance
flag, intent summary, ordered Operation list, resolved members. The backend
intent_parser.py is not under src. -/
structure IntentRecord where
  is_relevant : Bool
  intent : String
  operations : List Operation
  members : List String
deriving DecidableEq, Repr

/-- Modelled from the spec: a RejectionRecord for an out-of-domain query
(spec section 4.1), carrying a human-readable reason. -/
structure RejectionRecord where
  reason : String
deriving DecidableEq, Repr

/-- A validated structured output of the Language Inference Gateway: either
an intent plan for a relevant query or a rejection for an irrelevant one
(the two JSON formats the prompt template in Chat.js asks the model to
choose between). -/
inductive StructuredOutput where
  | intent (rec : IntentRecord)
  | rejection (rec : RejectionRecord)
deriving DecidableEq, Repr

/-- The Operations a structured output emits: a rejection never emits
any. -/
def emittedOperations : StructuredOutput → List Operation
  | StructuredOutput.intent rec => rec.operations
  | StructuredOutput.rejection _ => []

/-- The overall result of `parse`: an IntentRecord, a RejectionRecord, or
the ParseFailure signal that triggers the Fallback Agent (spec section
4.1). -/
inductive ParseResult where
  | intent (rec : IntentRecord)
  | rejection (rec : RejectionRecord)
  | parseFailure
deriving DecidableEq, Repr

/-- Whether a parse result is a rejection (a RejectionRecord); used to
state that ParseFailure is a distinct signal. -/
def ParseResult.isRejection : ParseResult → Bool
  | ParseResult.rejection _ => true
  | _ => false

/-- Lift a validated structured output into a parse result. -/
def ofStructured : StructuredOutput → ParseResult
  | StructuredOutput.intent rec => ParseResult.intent rec
  | StructuredOutput.rejection rec => ParseResult.rejection rec

/-- A parse run: the outcome together with how many Gateway calls were made
and how many corrective retries occurred. -/
structure ParseTrace where
  outcome : ParseResult
  gatewayCalls : Nat
  retries : Nat
deriving DecidableEq, Repr

/-- Modelled from the spec: the corrective re-prompt that echoes the
validation error back to the model (spec section 4.1). -/
def correctivePrompt (base err : String) : String :=
  base ++ "\nThe previous response failed validation: " ++ err ++
    "\nRespond again with ONLY a valid JSON object."

/-- Modelled from the spec: `parse` (spec section 4.1) — invoke the
Language Inference Gateway on the composed prompt and validate the raw
text; on the first validation failure retry exactly once with the
corrective re-prompt; on a second failure return the ParseFailure signal.
The gateway is a function from prompt to raw text and validation returns
the structured output or the validation error message. The backend
intent_parser.py is not under src. -/
def parseQuery (gateway : String → String)
    (validate : String → Except String StructuredOutput)
    (basePrompt : String) : ParseTrace :=
  match validate (gateway basePrompt) with
  | Except.ok r => ⟨ofStructured r, 1, 0⟩
  | Except.error e1 =>
      match validate (gateway (correctivePrompt basePrompt e1)) with
      | Except.ok r => ⟨ofStructured r, 2, 1⟩
      | Except.error _ => ⟨ParseResult.parseFailure, 2, 1⟩

/-- Modelled from the spec: the domain context the relevance gate judges
against — tracked members, projects and repositories (spec sections 4.1 and
8; the prompt template embedded after Chat.js). -/
structure DomainContext where
  members : List String
  projects : List String
  repositories : List String
deriving Repr

/-- A query token references a tracked entity from the given list. -/
def mentionsAny (queryTokens : List String) (entities : List String) : Bool :=
  queryTokens.any (fun t => entities.contains t)

/-- Modelled from the spec: the relevance test of the gate — the query
references a tracked member, project or repository, or contains an
activity-tracking verb (spec section 8). -/
def relevantQuery (ctx : DomainContext) (verbs : List String)
    (queryTokens : List String) : Bool :=
  mentionsAny queryTokens ctx.members || mentionsAny queryTokens ctx.projects ||
    mentionsAny queryTokens ctx.repositories || mentionsAny queryTokens verbs

/-- Modelled from the spec: the relevance gate (spec section 4.1; the
two-format instruction of the prompt template after Chat.js) — a relevant
query proceeds to the structured plan, an out-of-domain query yields a
RejectionRecord with a human-readable reason and no Operations. The gate
itself lives in the backend prompt-driven parser, not under src. -/
def classifyQuery (ctx : DomainContext) (verbs : List String)
    (queryTokens : List String) (plan : IntentRecord) : StructuredOutput :=
  if relevantQuery ctx verbs queryTokens then StructuredOutput.intent plan
  else
    StructuredOutput.rejection
      ⟨"Query is outside the scope of JIRA and GitHub activity tracking"⟩

/-! ## Fallback Agent (spec section 4.3) -/

/-- One step of the reason-act loop: the model either names an operation to
invoke next or declares it has enough information to answer. -/
inductive AgentStep where
  | invoke (op : Operation)
  | done (answer : String)
deriving Repr

/-- The Fallback Agent outcome: a completed run with its collected
ToolResults and answer, or GiveUp with whatever results were collected
(spec section 4.3). -/
inductive AgentOutcome where
  | completed (results : List ToolResult) (answer : String)
  | giveUp (results : List ToolResult)
deriving Repr

/-- Whether an agent outcome is GiveUp. -/
def AgentOutcome.isGiveUp : AgentOutcome → Bool
  | AgentOutcome.giveUp _ => true
  | _ => false

/-- An agent run: the outcome together with the number of attempts (loop
iterations) consumed. -/
structure AgentTrace where
  outcome : AgentOutcome
  attempts : Nat
deriving Repr

/-- Modelled from the spec: the bounded reason-act loop of the Fallback
Agent (spec section 4.3) — at each step ask the model for the next step;
on completion stop; a named operation is validated and executed exactly
like in the Operation Dispatcher; the loop stops when the remaining step
budget is exhausted (GiveUp) or when validation has rejected failLimit
consecutive suggestions (GiveUp). Structural recursion on the remaining
step budget. The backend basic_agent.py is not under src. -/
def runAgentLoop (catalog : List CapabilityDescriptor)
    (adapter : Operation → ExecOutcome) (model : Nat → AgentStep)
    (failLimit : Nat) :
    Nat → Nat → Nat → List ToolResult → AgentTrace
  | 0, attempts, _, acc => ⟨AgentOutcome.giveUp acc, attempts⟩
  | stepsLeft + 1, attempts, consecFails, acc =>
      match model attempts with
      | AgentStep.done answer => ⟨AgentOutcome.completed acc answer, attempts⟩
      | AgentStep.invoke op =>
          if validOp catalog op then
            runAgentLoop catalog adapter model failLimit stepsLeft
              (attempts + 1) 0 (acc ++ [outcomeToResult op (adapter op)])
          else if failLimit ≤ consecFails + 1 then
            ⟨AgentOutcome.giveUp (acc ++ [invalidResult op]), attempts + 1⟩
          else
            runAgentLoop catalog adapter model failLimit stepsLeft
              (attempts + 1) (consecFails + 1) (acc ++ [invalidResult op])

/-- Modelled from the spec: `run(query, catalog, max_steps)` (spec section
4.3) — run the reason-act loop with the full step budget and no results
collected yet. -/
def runFallback (catalog : List CapabilityDescriptor)
    (adapter : Operation → ExecOutcome) (model : Nat → AgentStep)
    (failLimit maxSteps : Nat) : AgentTrace :=
  runAgentLoop catalog adapter model failLimit maxSteps 0 0 []

/-! ## Helper lemmas -/

/-- One loop iteration of the query builders produces exactly the claimed
per-entry expansion, appended to the accumulator. -/
theorem appendFilterEntry_eq (acc : List (String × String))
    (kv : String × FilterValue) :
    appendFilterEntry acc kv = acc ++ expandEntrySpec kv := by
  rcases kv with ⟨key, v⟩
  cases v with
  | null => simp [appendFilterEntry, FilterValue.isSkipped, expandEntrySpec]
  | undef => simp [appendFilterEntry, FilterValue.isSkipped, expandEntrySpec]
  | str s =>
      by_cases hs : s = "" <;>
        simp [appendFilterEntry, FilterValue.isSkipped, expandEntrySpec,
          FilterValue.jsString, hs]
  | num n =>
      simp [appendFilterEntry, FilterValue.isSkipped, expandEntrySpec,
        FilterValue.jsString]
  | bool b =>
      simp [appendFilterEntry, FilterValue.isSkipped, expandEntrySpec,
        FilterValue.jsString]
  | arr xs => simp [appendFilterEntry, FilterValue.isSkipped, expandEntrySpec]

/-- The builder fold equals the accumulator followed by the concatenated
per-entry expansions. -/
theorem foldl_appendFilterEntry (filters : List (String × FilterValue)) :
    ∀ acc, filters.foldl appendFilterEntry acc =
      acc ++ filters.flatMap expandEntrySpec := by
  induction filters with
  | nil => intro acc; simp
  | cons kv rest ih =>
      intro acc
      simp only [List.foldl_cons, List.flatMap_cons, appendFilterEntry_eq, ih,
        List.append_assoc]

/-- The result produced for an Operation keeps that Operation as its
origin. -/
theorem outcomeToResult_op (op : Operation) (o : ExecOutcome) :
    (outcomeToResult op o).op = op := by
  cases o <;> rfl

/-- A query none of whose tokens lies in the entity list mentions none of
those entities. -/
theorem mentionsAny_eq_false (queryTokens entities : List String)
    (h : ∀ t ∈ queryTokens, t ∉ entities) :
    mentionsAny queryTokens entities = false := by
  simp only [mentionsAny, List.any_eq_false]
  intro t ht
  simpa using h t ht

/-! ## Claim theorems -/

/-- C10: the query-string builders of getJiraIssues, getGitHubCommits and
getGitHubPullRequests omit every entry whose value is null, undefined or
the empty string, expand an array-valued entry into one repeated parameter
per element in array order, and include every other entry as a single
key=value parameter, preserving entry order. -/
theorem query_builders_spec (filters : List (String × FilterValue)) :
    getJiraIssuesParams filters = filters.flatMap expandEntrySpec ∧
    getGitHubCommitsParams filters = filters.flatMap expandEntrySpec ∧
    getGitHubPullRequestsParams filters = filters.flatMap expandEntrySpec := by
  refine ⟨?_, ?_, ?_⟩ <;>
    simpa [getJiraIssuesParams, getGitHubCommitsParams,
      getGitHubPullRequestsParams, buildQueryParams] using
      foldl_appendFilterEntry filters []

/-- C2: for a plan holding one valid and one invalid Operation, the
dispatcher returns exactly two ToolResults in plan order (shown for both
orders); the valid one carries the real adapter outcome, the invalid one an
immediate validation failure, and neither failure removes the sibling
result. -/
theorem dispatcher_mixed_plan (catalog : List CapabilityDescriptor)
    (adapter : Operation → ExecOutcome) (opV opI : Operation)
    (hv : validOp catalog opV = true) (hi : validOp catalog opI = false) :
    dispatch catalog adapter [opV, opI] =
      [outcomeToResult opV (adapter opV), invalidResult opI] ∧
    dispatch catalog adapter [opI, opV] =
      [invalidResult opI, outcomeToResult opV (adapter opV)] ∧
    (dispatch catalog adapter [opV, opI]).map ToolResult.op = [opV, opI] ∧
    (invalidResult opI).success = false ∧
    (invalidResult opI).error.isSome = true := by
  refine ⟨?_, ?_, ?_, rfl, rfl⟩ <;>
    simp [dispatch, hv, hi, outcomeToResult_op, invalidResult]

/-- Witness for C2 at a concrete catalog, plan and adapter. -/
theorem dispatcher_mixed_plan_witness :
    validOp [⟨"jira", "get_issues", ["project"]⟩]
      ⟨"jira", "get_issues", [("project", "ABC")]⟩ = true ∧
    validOp [⟨"jira", "get_issues", ["project"]⟩] ⟨"jira", "bogus", []⟩ = false ∧
    dispatch [⟨"jira", "get_issues", ["project"]⟩]
      (fun _ => ExecOutcome.success "ok")
      [⟨"jira", "get_issues", [("project", "ABC")]⟩, ⟨"jira", "bogus", []⟩] =
      [outcomeToResult ⟨"jira", "get_issues", [("project", "ABC")]⟩
        (ExecOutcome.success "ok"),
       invalidResult ⟨"jira", "bogus", []⟩] :=
  ⟨by decide, by decide,
   (dispatcher_mixed_plan _ _ _ _ (by decide) (by decide)).1⟩

/-- C3: when the structured Gateway output fails validation and the one
corrective retry fails again, parse returns the ParseFailure signal, which
is not a RejectionRecord, having performed exactly one retry (two Gateway
calls); parseQuery is a total function, so no unhandled error escapes. -/
theorem intent_parser_retry (gateway : String → String)
    (validate : String → Except String StructuredOutput)
    (basePrompt e1 e2 : String)
    (h1 : validate (gateway basePrompt) = Except.error e1)
    (h2 : validate (gateway (correctivePrompt basePrompt e1)) =
      Except.error e2) :
    parseQuery gateway validate basePrompt =
      ⟨ParseResult.parseFailure, 2, 1⟩ ∧
    (parseQuery gateway validate basePrompt).outcome.isRejection = false ∧
    (parseQuery gateway validate basePrompt).retries = 1 := by
  refine ⟨?_, ?_, ?_⟩ <;> simp [parseQuery, h1, h2, ParseResult.isRejection]

/-- Witness for C3 at a concrete gateway and validator that reject every
response. -/
theorem intent_parser_retry_witness :
    ((fun _ : String => (Except.error "invalid JSON" :
        Except String StructuredOutput)) ((fun p : String => p) "prompt") =
      Except.error "invalid JSON") ∧
    parseQuery (fun p : String => p)
      (fun _ => Except.error "invalid JSON") "prompt" =
      ⟨ParseResult.parseFailure, 2, 1⟩ :=
  ⟨rfl,
   (intent_parser_retry (fun p => p) (fun _ => Except.error "invalid JSON")
      "prompt" "invalid JSON" "invalid JSON" rfl rfl).1⟩

/-- C5: a query none of whose tokens names a tracked member, project or
repository and which contains no activity-tracking verb is classified as
not relevant: the gate yields a RejectionRecord with a non-empty
human-readable reason, and no Operation is emitted for it. -/
theorem relevance_gate_rejects (ctx : DomainContext)
    (verbs queryTokens : List String) (plan : IntentRecord)
    (h : ∀ t ∈ queryTokens,
      t ∉ ctx.members ∧ t ∉ ctx.projects ∧ t ∉ ctx.repositories ∧
        t ∉ verbs) :
    ∃ rej : RejectionRecord,
      classifyQuery ctx verbs queryTokens plan =
        StructuredOutput.rejection rej ∧
      rej.reason ≠ "" ∧
      emittedOperations (classifyQuery ctx verbs queryTokens plan) = [] := by
  have hrel : relevantQuery ctx verbs queryTokens = false := by
    simp only [relevantQuery, Bool.or_eq_false_iff]
    exact ⟨⟨⟨mentionsAny_eq_false _ _ (fun t ht => (h t ht).1),
      mentionsAny_eq_false _ _ (fun t ht => (h t ht).2.1)⟩,
      mentionsAny_eq_false _ _ (fun t ht => (h t ht).2.2.1)⟩,
      mentionsAny_eq_false _ _ (fun t ht => (h t ht).2.2.2)⟩
  refine ⟨⟨"Query is outside the scope of JIRA and GitHub activity tracking"⟩,
    ?_, by simp, ?_⟩ <;> simp [classifyQuery, hrel, emittedOperations]

/-- Witness for C5 at a concrete domain context and an out-of-domain
query. -/
theorem relevance_gate_rejects_witness :
    (∀ t ∈ ["what", "is", "the", "weather", "today"],
      t ∉ ["john", "sarah"] ∧ t ∉ ["ABC"] ∧ t ∉ ["frontend", "backend"] ∧
        t ∉ ["working", "commits", "issues", "pull"]) ∧
    ∃ rej : RejectionRecord,
      classifyQuery ⟨["john", "sarah"], ["ABC"], ["frontend", "backend"]⟩
        ["working", "commits", "issues", "pull"]
        ["what", "is", "the", "weather", "today"] ⟨true, "", [], []⟩ =
        StructuredOutput.rejection rej ∧
      rej.reason ≠ "" ∧
      emittedOperations
        (classifyQuery ⟨["john", "sarah"], ["ABC"], ["frontend", "backend"]⟩
          ["working", "commits", "issues", "pull"]
          ["what", "is", "the", "weather", "today"] ⟨true, "", [], []⟩) = [] :=
  ⟨by decide,
   relevance_gate_rejects _ _ _ _ (by decide)⟩

/-- The reason-act loop consumes at most its remaining step budget:
starting from attempt counter a with k steps left, the final attempt count
is at most a + k, whatever the model suggests. -/
theorem runAgentLoop_attempts_le (catalog : List CapabilityDescriptor)
    (adapter : Operation → ExecOutcome) (model : Nat → AgentStep)
    (failLimit : Nat) :
    ∀ (k a c : Nat) (acc : List ToolResult),
      (runAgentLoop catalog adapter model failLimit k a c acc).attempts ≤
        a + k := by
  intro k
  induction k with
  | zero => intro a c acc; simp [runAgentLoop]
  | succ n ih =>
      intro a c acc
      cases hm : model a with
      | done ans => simp [runAgentLoop, hm]
      | invoke op =>
          cases hval : validOp catalog op with
          | true =>
              simp only [runAgentLoop, hm, hval, if_true]
              have := ih (a + 1) 0 (acc ++ [outcomeToResult op (adapter op)])
              omega
          | false =>
              by_cases hfl : failLimit ≤ c + 1
              · simp [runAgentLoop, hm, hval, hfl]
              · simp only [runAgentLoop, hm, hval, Bool.false_eq_true,
                  if_false, if_neg hfl]
                have := ih (a + 1) (c + 1) (acc ++ [invalidResult op])
                omega

/-- When every model suggestion is an operation failing validation, the
reason-act loop always ends in GiveUp. -/
theorem runAgentLoop_all_invalid (catalog : List CapabilityDescriptor)
    (adapter : Operation → ExecOutcome) (model : Nat → AgentStep)
    (failLimit : Nat)
    (h : ∀ n, ∃ op, model n = AgentStep.invoke op ∧
      validOp catalog op = false) :
    ∀ (k a c : Nat) (acc : List ToolResult),
      (runAgentLoop catalog adapter model failLimit k a c acc).outcome.isGiveUp
        = true := by
  intro k
  induction k with
  | zero => intro a c acc; simp [runAgentLoop, AgentOutcome.isGiveUp]
  | succ n ih =>
      intro a c acc
      obtain ⟨op, hm, hval⟩ := h a
      by_cases hfl : failLimit ≤ c + 1
      · simp [runAgentLoop, hm, hval, hfl, AgentOutcome.isGiveUp]
      · simp only [runAgentLoop, hm, hval, Bool.false_eq_true, if_false,
          if_neg hfl]
        exact ih (a + 1) (c + 1) (acc ++ [invalidResult op])

/-- C4: on a catalog where every model-suggested operation fails
validation, the Fallback Agent run with max_steps = 3 terminates with
GiveUp after at most 3 attempts; and for any max_steps the loop never
exceeds max_steps iterations (it always terminates, being structurally
recursive on the remaining budget). -/
theorem fallback_agent_bounded (catalog : List CapabilityDescriptor)
    (adapter : Operation → ExecOutcome) (model : Nat → AgentStep)
    (failLimit maxSteps : Nat)
    (h : ∀ n, ∃ op, model n = AgentStep.invoke op ∧
      validOp catalog op = false) :
    (runFallback catalog adapter model failLimit 3).outcome.isGiveUp = true ∧
    (runFallback catalog adapter model failLimit 3).attempts ≤ 3 ∧
    (runFallback catalog adapter model failLimit maxSteps).attempts ≤
      maxSteps := by
  refine ⟨runAgentLoop_all_invalid _ _ _ _ h 3 0 0 [], ?_, ?_⟩
  · simpa [runFallback] using
      runAgentLoop_attempts_le catalog adapter model failLimit 3 0 0 []
  · simpa [runFallback] using
      runAgentLoop_attempts_le catalog adapter model failLimit maxSteps 0 0 []

/-- Witness for C4 at an empty catalog and a model that always suggests the
same unknown operation. -/
theorem fallback_agent_bounded_witness :
    (∀ n : Nat, ∃ op : Operation,
      (fun _ : Nat => AgentStep.invoke ⟨"jira", "bogus", []⟩) n =
        AgentStep.invoke op ∧ validOp [] op = false) ∧
    (runFallback [] (fun _ => ExecOutcome.timeout)
        (fun _ => AgentStep.invoke ⟨"jira", "bogus", []⟩) 5 3).outcome.isGiveUp
      = true ∧
    (runFallback [] (fun _ => ExecOutcome.timeout)
        (fun _ => AgentStep.invoke ⟨"jira", "bogus", []⟩) 5 3).attempts ≤ 3 :=
  have hyp : ∀ n : Nat, ∃ op : Operation,
      (fun _ : Nat => AgentStep.invoke ⟨"jira", "bogus", []⟩) n =
        AgentStep.invoke op ∧ validOp [] op = false :=
    fun _ => ⟨⟨"jira", "bogus", []⟩, rfl, rfl⟩
  ⟨hyp,
   (fallback_agent_bounded [] (fun _ => ExecOutcome.timeout)
      (fun _ => AgentStep.invoke ⟨"jira", "bogus", []⟩) 5 3 hyp).1,
   (fallback_agent_bounded [] (fun _ => ExecOutcome.timeout)
      (fun _ => AgentStep.invoke ⟨"jira", "bogus", []⟩) 5 3 hyp).2.1⟩

/-- Appending to an existing thread yields exactly the store extended at
the end of the log, together with the created message. -/
theorem appendMsg_some (s : Store) (tid : Nat) (role : Role)
    (content : String) (h : threadExists s tid = true) :
    appendMsg s tid role content =
      some ({ s with
                messages := s.messages ++ [⟨s.nextId, tid, role, content⟩],
                nextId := s.nextId + 1 },
            ⟨s.nextId, tid, role, content⟩) := by
  simp [appendMsg, h]

/-- C1: conversation memory is append-only and order-preserving — after
appending three messages to an existing thread, history with window 3
returns exactly those three in chronological order; and in the frontend the
success path of handleSendMessage leaves the messages list equal to the
prior list extended by the user message followed by the assistant
message. -/
theorem conversation_append_order (s : Store) (tid : Nat)
    (r1 r2 r3 : Role) (c1 c2 c3 : String)
    (prior : List UiMessage) (appendTime : Nat)
    (userId agentId content respText : String)
    (hT : threadExists s tid = true)
    (hTemp : ∀ m ∈ prior, m.id ≠ tempMsgId appendTime) :
    (∃ s1 m1 s2 m2 s3 m3,
       appendMsg s tid r1 c1 = some (s1, m1) ∧
       appendMsg s1 tid r2 c2 = some (s2, m2) ∧
       appendMsg s2 tid r3 c3 = some (s3, m3) ∧
       history s3 tid 3 = [m1, m2, m3]) ∧
    sendMessageSuccess prior appendTime userId agentId content respText =
      prior ++ [⟨userId, Role.user, content⟩,
                ⟨agentId, Role.assistant, respText⟩] := by
  constructor
  · refine ⟨_, _, _, _, _, _, appendMsg_some s tid r1 c1 hT,
      appendMsg_some _ tid r2 c2 ?_, appendMsg_some _ tid r3 c3 ?_, ?_⟩
    · exact hT
    · exact hT
    · simp [history, List.filter_append, List.reverse_append]
  · have hfilter :
        prior.filter (fun m => m.id != tempMsgId appendTime) = prior :=
      List.filter_eq_self.mpr (fun m hm => by simpa using hTemp m hm)
    simp [sendMessageSuccess, List.filter_append, hfilter]

/-- Witness for C1 at a concrete store, thread and prior message list. -/
theorem conversation_append_order_witness :
    threadExists ⟨[⟨1, "general"⟩], [], 10⟩ 1 = true ∧
    (∀ m ∈ ([⟨"a1", Role.assistant, "hi"⟩] : List UiMessage),
      m.id ≠ tempMsgId 1700) ∧
    ((∃ s1 m1 s2 m2 s3 m3,
       appendMsg ⟨[⟨1, "general"⟩], [], 10⟩ 1 Role.user "q1" = some (s1, m1) ∧
       appendMsg s1 1 Role.assistant "a1" = some (s2, m2) ∧
       appendMsg s2 1 Role.user "q2" = some (s3, m3) ∧
       history s3 1 3 = [m1, m2, m3]) ∧
    sendMessageSuccess [⟨"a1", Role.assistant, "hi"⟩] 1700 "u9" "m9" "q" "r" =
      [⟨"a1", Role.assistant, "hi"⟩] ++
        [⟨"u9", Role.user, "q"⟩, ⟨"m9", Role.assistant, "r"⟩]) :=
  ⟨rfl, by decide,
   conversation_append_order ⟨[⟨1, "general"⟩], [], 10⟩ 1
     Role.user Role.assistant Role.user "q1" "a1" "q2"
     [⟨"a1", Role.assistant, "hi"⟩] 1700 "u9" "m9" "q" "r" rfl (by decide)⟩

/-- C6: deleting a thread removes it and every one of its messages, a
subsequent history call returns the empty sequence rather than an error,
and delete is idempotent — in particular the second delete acts on a store
where the thread no longer exists and changes nothing, so deleting a
non-existent thread is not an error. -/
theorem delete_thread_spec (s : Store) (tid w : Nat) :
    history (deleteThreadStore s tid) tid w = [] ∧
    threadExists (deleteThreadStore s tid) tid = false ∧
    (deleteThreadStore s tid).messages.all (fun m => m.thread_id != tid)
      = true ∧
    deleteThreadStore (deleteThreadStore s tid) tid =
      deleteThreadStore s tid := by
  refine ⟨?_, ?_, ?_, ?_⟩
  · rw [history, deleteThreadStore]
    simp [List.filter_filter]
  · rw [threadExists, deleteThreadStore]
    simp [List.any_filter]
  · rw [deleteThreadStore]
    simp [List.all_filter]
  · simp [deleteThreadStore, List.filter_filter]

/-- C7: append always succeeds for an existing (hence non-deleted) thread
and returns the created Message; with no thread supplied and a title given,
a thread is created implicitly, the message is appended to it, and the
response carries the thread identifier that was used. -/
theorem append_and_implicit_thread (s : Store) (tid : Nat) (role : Role)
    (content title qcontent : String)
    (hT : threadExists s tid = true) :
    appendMsg s tid role content =
      some ({ s with
                messages := s.messages ++ [⟨s.nextId, tid, role, content⟩],
                nextId := s.nextId + 1 },
            ⟨s.nextId, tid, role, content⟩) ∧
    (∃ s2 resp,
       queryTeamActivity s none title qcontent = some (s2, resp) ∧
       threadExists s2 resp.thread_id = true ∧
       resp.user_message.thread_id = resp.thread_id ∧
       resp.user_message.content = qcontent ∧
       history s2 resp.thread_id 1 = [resp.user_message]) := by
  refine ⟨appendMsg_some s tid role content hT, ?_⟩
  have hex : threadExists
      { s with threads := s.threads ++ [⟨s.nextId, title⟩],
               nextId := s.nextId + 1 } s.nextId = true := by
    simp [threadExists]
  refine ⟨{ s with
             threads := s.threads ++ [⟨s.nextId, title⟩],
             messages := s.messages ++
               [⟨s.nextId + 1, s.nextId, Role.user, qcontent⟩],
             nextId := s.nextId + 1 + 1 },
    ⟨s.nextId, ⟨s.nextId + 1, s.nextId, Role.user, qcontent⟩⟩,
    ?_, ?_, rfl, rfl, ?_⟩
  · simp [queryTeamActivity, createThread, appendMsg, hex]
  · simp [threadExists]
  · simp [history, List.filter_append, List.reverse_append]

/-- Witness for C7 at a concrete store with one existing thread. -/
theorem append_and_implicit_thread_witness :
    threadExists ⟨[⟨1, "general"⟩], [], 5⟩ 1 = true ∧
    appendMsg ⟨[⟨1, "general"⟩], [], 5⟩ 1 Role.user "hello" =
      some (⟨[⟨1, "general"⟩], [⟨5, 1, Role.user, "hello"⟩], 6⟩,
            ⟨5, 1, Role.user, "hello"⟩) ∧
    (∃ s2 resp,
       queryTeamActivity ⟨[⟨1, "general"⟩], [], 5⟩ none "new thread" "hi"
         = some (s2, resp) ∧
       threadExists s2 resp.thread_id = true ∧
       resp.user_message.thread_id = resp.thread_id ∧
       resp.user_message.content = "hi" ∧
       history s2 resp.thread_id 1 = [resp.user_message]) :=
  ⟨rfl,
   (append_and_implicit_thread ⟨[⟨1, "general"⟩], [], 5⟩ 1 Role.user
      "hello" "new thread" "hi" rfl).1,
   (append_and_implicit_thread ⟨[⟨1, "general"⟩], [], 5⟩ 1 Role.user
      "hello" "new thread" "hi" rfl).2⟩

/-- C8: evaluation at a failing input — the catch branch of
handleSendMessage filters with the id string rebuilt from a fresh
`Date.now()` (1001) instead of the id computed at append time (1000), so
the temporary user message survives and the messages list does not return
to its prior value, contradicting the adjacent source comment that says the
temporary user message is removed on error. -/
theorem send_message_error_keeps_temp :
    sendMessageFailure [] 1000 1001 "hello" =
      [⟨tempMsgId 1000, Role.user, "hello"⟩] ∧
    sendMessageFailure [] 1000 1001 "hello" ≠ [] := by
  constructor
  · decide
  · decide

/-- C9 counterexample: for the non-ok response with status 500 and body
with a present but empty-string detail field, handleResponse throws the
fallback message, not the detail field, so the claim as stated fails. -/
theorem handleResponse_empty_detail_counterexample :
    (Json.obj [("detail", Json.str "")]).getField "detail" =
      some (Json.str "") ∧
    handleResponse ⟨false, 500, some (Json.obj [("detail", Json.str "")])⟩ =
      JsOutcome.apiError ⟨"HTTP error! status: 500", 500⟩ ∧
    handleResponse ⟨false, 500, some (Json.obj [("detail", Json.str "")])⟩ ≠
      JsOutcome.apiError ⟨"", 500⟩ := by
  refine ⟨rfl, rfl, ?_⟩
  intro h
  rw [show handleResponse
      ⟨false, 500, some (Json.obj [("detail", Json.str "")])⟩ =
      JsOutcome.apiError ⟨"HTTP error! status: 500", 500⟩ from rfl] at h
  simp at h

/-- C9 (amended): on a non-ok response whose parsed error body is not JSON
null, handleResponse throws an ApiError whose status equals the response
status and whose message is the detail field of the parsed body (an
unparseable body is treated as the empty object) when that field is present
and truthy — a present falsy detail such as the empty string falls back —
and otherwise the fallback "HTTP error! status: <status>"; a non-ok
response whose body parses to JSON null instead rejects with the TypeError
raised by the `errorData.detail` access, not with an ApiError; on an ok
response whose body parses it returns the parsed JSON body and throws
nothing. -/
theorem handleResponse_cases (r : JsResponse) (d j : Json) :
    (r.ok = false →
      (r.body.getD (Json.obj [])).getField "detail" = some d →
      handleResponse r = JsOutcome.apiError
        ⟨if d.truthy then d.jsString
          else "HTTP error! status: " ++ toString r.status, r.status⟩) ∧
    (r.ok = false →
      (r.body.getD (Json.obj [])).isNull = false →
      (r.body.getD (Json.obj [])).getField "detail" = none →
      handleResponse r = JsOutcome.apiError
        ⟨"HTTP error! status: " ++ toString r.status, r.status⟩) ∧
    (r.ok = false → r.body = some Json.null →
      handleResponse r = JsOutcome.typeError) ∧
    (r.ok = true → r.body = some j → handleResponse r = JsOutcome.ok j) := by
  refine ⟨?_, ?_, ?_, ?_⟩
  · intro h1 h2
    have hnn : (r.body.getD (Json.obj [])).isNull = false := by
      rcases he : r.body.getD (Json.obj []) with _ | b | n | s | xs | fs
      · rw [he] at h2; simp [Json.getField] at h2
      all_goals simp [he, Json.isNull]
    simp [handleResponse, h1, hnn, h2]
  · intro h1 hnn h2
    simp [handleResponse, h1, hnn, h2]
  · intro h1 h2
    simp [handleResponse, h1, h2, Json.isNull]
  · intro h1 h2
    simp [handleResponse, h1, h2]

/-- Witness for C9 at a concrete non-ok response carrying a truthy detail
field, and at a non-ok response whose body parses to JSON null. -/
theorem handleResponse_cases_witness :
    (⟨false, 401, some (Json.obj [("detail", Json.str "missing auth")])⟩ :
        JsResponse).ok = false ∧
    ((some (Json.obj [("detail", Json.str "missing auth")]) :
        Option Json).getD (Json.obj [])).getField "detail" =
      some (Json.str "missing auth") ∧
    handleResponse
        ⟨false, 401, some (Json.obj [("detail", Json.str "missing auth")])⟩ =
      JsOutcome.apiError ⟨"missing auth", 401⟩ ∧
    handleResponse ⟨false, 500, some Json.null⟩ = JsOutcome.typeError := by
  refine ⟨rfl, rfl, ?_, ?_⟩
  · have h := (handleResponse_cases
      ⟨false, 401, some (Json.obj [("detail", Json.str "missing auth")])⟩
      (Json.str "missing auth") Json.null).1 rfl rfl
    simpa [Json.truthy, Json.jsString] using h
  · exact (handleResponse_cases ⟨false, 500, some Json.null⟩
      Json.null Json.null).2.2.1 rfl rfl

end TeamActivity
